import Mathlib

/-!
Shallow embedding of `src/wrf_reproduce_grid.py`.

The Python module reconstructs the regular grid of a WRF model output from
its stored metadata and cross-checks it against the native irregular
latitude/longitude arrays.  Numpy float arrays are embedded as lists of
rationals (all arithmetic the module performs on them is exact on dyadic
rationals), 2D arrays as lists of rows, the xarray dataset as a structure of
its accessed attributes and variables, and the external `pyproj.transform`
collaborator as an explicit function parameter.  Console output of the
consistency check is modelled as returned report values.
-/

namespace WrfGrid

/-- A 2D numpy array of floats: a list of rows of rationals. -/
abbrev Arr2 := List (List ℚ)

/-- `np.arange(start, stop, 1)` for integer arguments. -/
def arangeInt (start stop : ℤ) : List ℤ :=
  (List.range (stop - start).toNat).map (fun (k : ℕ) => start + (k : ℤ))

/-- `np.arange(start, stop, 1)` for float arguments: numpy produces
`max(0, ceil(stop - start))` points `start, start + 1, ...`. -/
def arangeRat (start stop : ℚ) : List ℚ :=
  (List.range (Int.ceil (stop - start)).toNat).map (fun (k : ℕ) => start + (k : ℚ))

/-- The xarray dataset object `wrfout`, reduced to the attributes and
variables the module reads.  The six coordinate variables are indexed by
their `Time` dimension (the module only reads `Time=0`). -/
structure WrfOut where
  MAP_PROJ : ℤ
  CEN_LON : ℚ
  CEN_LAT : ℚ
  TRUELAT1 : ℚ
  TRUELAT2 : ℚ
  DX : ℚ
  DY : ℚ
  WEST_EAST_PATCH_END_UNSTAG : ℕ
  SOUTH_NORTH_PATCH_END_UNSTAG : ℕ
  XLONG : ℕ → Arr2
  XLAT : ℕ → Arr2
  XLONG_U : ℕ → Arr2
  XLAT_U : ℕ → Arr2
  XLONG_V : ℕ → Arr2
  XLAT_V : ℕ → Arr2

/-- A `pyproj.Proj` object, one constructor per projection string the module
builds: the Lambert conformal conic string of `get_wrf_proj` (line 19),
`"+init=EPSG:4326"` (line 135) and the spherical lat/lon string
`"+proj=latlong +a=6370 +b=6370 +towgs84=0,0,0 +no_defs"` (line 137). -/
inductive Proj where
  | lcc (lat1 lat2 lat0 lon0 radius : ℚ)
  | latlonWGS84
  | latlonSphere (a b : ℚ)
deriving DecidableEq, Repr

/-- `get_wrf_proj`: return a pyproj object consistent with the wrf
projection; raises `ValueError` unless `MAP_PROJ == 1` (Lambert). -/
def get_wrf_proj (wrfout : WrfOut) : Except String Proj :=
  if wrfout.MAP_PROJ = 1 then
    let clon := wrfout.CEN_LON
    let clat := wrfout.CEN_LAT
    let lat1 := wrfout.TRUELAT1
    let lat2 := wrfout.TRUELAT2
    Except.ok (Proj.lcc lat1 lat2 clat clon 6370000)
  else
    Except.error "This WRF output is not on a Lambert grid"

/-- The dict returned by `get_wrf_grid_params`. -/
structure GridParams where
  dx : ℚ
  dy : ℚ
  nx : ℕ
  ny : ℕ

/-- `get_wrf_grid_params`: read the relevant grid parameters. -/
def get_wrf_grid_params (wrfout : WrfOut) : GridParams :=
  { dx := wrfout.DX
    dy := wrfout.DY
    nx := wrfout.WEST_EAST_PATCH_END_UNSTAG
    ny := wrfout.SOUTH_NORTH_PATCH_END_UNSTAG }

/-- `make_grid_coordinate` (nested in `reconstruct_grid`, lines 48-55):
given a number of grid points and grid spacing, return a 1D-array centered
around 0.  Odd counts use the integer `np.arange(-(nx//2), nx//2+1, 1)`,
even counts the float `np.arange(-(nx-1)/2., (nx+1)//2., 1)`. -/
def make_grid_coordinate (nx : ℕ) (dx : ℚ) : List ℚ :=
  let ix : List ℚ :=
    if nx % 2 = 1 then
      (arangeInt (-((nx : ℤ) / 2)) ((nx : ℤ) / 2 + 1)).map (fun (i : ℤ) => (i : ℚ))
    else
      arangeRat (-((nx : ℚ) - 1) / 2) (((nx + 1) / 2 : ℕ) : ℚ)
  ix.map (fun i => i * dx)

/-- `np.meshgrid(x, y)` (default indexing): a pair of arrays of shape
`(len y, len x)`, the first repeating `x` along rows, the second repeating
each `y` value across a row. -/
def meshgrid (x y : List ℚ) : Arr2 × Arr2 :=
  (y.map (fun _ => x), y.map (fun yj => x.map (fun _ => yj)))

/-- The coords dict built at line 70 (keys `x`, `y`, `x_stag`, `y_stag`). -/
structure Axes where
  x : List ℚ
  y : List ℚ
  x_stag : List ℚ
  y_stag : List ℚ
deriving DecidableEq, Repr

/-- A dict with keys `mass_grid`, `u_grid`, `v_grid`, each a pair of 2D
arrays; the shape of both `grids` of `reconstruct_grid` and of the result
of `load_wrf_grids`. -/
structure Grids where
  mass_grid : Arr2 × Arr2
  u_grid : Arr2 × Arr2
  v_grid : Arr2 × Arr2
deriving DecidableEq, Repr

/-- `reconstruct_grid`: given dx, dy, nx and ny as dict, return x, y as 1d
and X, Y as 2d grid coordinates.  Line 63 of the source builds `y_stag`
from `nx+1` and `dx` (the x direction's parameters), and line 70 ends in a
trailing comma, so `coords` is a 1-tuple holding the dict — embedded as a
one-element list. -/
def reconstruct_grid (grid_params : GridParams) : List Axes × Grids :=
  let x := make_grid_coordinate grid_params.nx grid_params.dx
  let y := make_grid_coordinate grid_params.ny grid_params.dy
  let x_stag := make_grid_coordinate (grid_params.nx + 1) grid_params.dx
  let y_stag := make_grid_coordinate (grid_params.nx + 1) grid_params.dx
  let mass_grid := meshgrid x y
  let u_grid := meshgrid x_stag y
  let v_grid := meshgrid x y_stag
  ([{ x := x, y := y, x_stag := x_stag, y_stag := y_stag }],
   { mass_grid := mass_grid, u_grid := u_grid, v_grid := v_grid })

/-- `load_wrf_grids`: read the native mass and staggered lat/lon arrays at
`Time=0`. -/
def load_wrf_grids (wrfout : WrfOut) : Grids :=
  let x := wrfout.XLONG 0
  let y := wrfout.XLAT 0
  let mass_grid := (x, y)
  let x_u_stag := wrfout.XLONG_U 0
  let y_u_stag := wrfout.XLAT_U 0
  let u_grid := (x_u_stag, y_u_stag)
  let x_v_stag := wrfout.XLONG_V 0
  let y_v_stag := wrfout.XLAT_V 0
  let v_grid := (x_v_stag, y_v_stag)
  { mass_grid := mass_grid, u_grid := u_grid, v_grid := v_grid }

/-- Elementwise difference of two 2D arrays. -/
def sub2 (a b : Arr2) : Arr2 :=
  List.zipWith (fun r s => List.zipWith (fun u v => u - v) r s) a b

/-- `np.sum` of a 2D array. -/
def arr2Sum (a : Arr2) : ℚ := (a.flatten).sum

/-- Element count of a 2D array. -/
def arr2Size (a : Arr2) : ℕ := (a.flatten).length

/-- `np.mean` of a 2D array (on the nonempty arrays the module feeds it). -/
def arr2Mean (a : Arr2) : ℚ := arr2Sum a / (arr2Size a : ℚ)

/-- `np.max` of a 2D array (on the nonempty arrays the module feeds it). -/
def arr2Max (a : Arr2) : ℚ := (a.flatten).foldl max ((a.flatten).headD 0)

/-- `np.argmax`: flat index of the first maximal element. -/
def argmaxFlat (a : Arr2) : ℕ :=
  (a.flatten).findIdx (fun v => v == arr2Max a)

/-- `np.unravel_index(idx, shape)` for a 2D shape `(rows, cols)`. -/
def unravelIndex (idx cols : ℕ) : ℕ × ℕ := (idx / cols, idx % cols)

/-- The six statistics `print_diffs` (lines 96-103) prints for a compared
pair of transformed and reference arrays. -/
structure DiffStats where
  sum_x : ℚ
  sum_y : ℚ
  mean_x : ℚ
  mean_y : ℚ
  max_x : ℚ
  max_y : ℚ
  argmax_x : ℕ × ℕ
  argmax_y : ℕ × ℕ
deriving DecidableEq, Repr

/-- `print_diffs(xt, yt, x2, y2)`, its console output as a value. -/
def print_diffs (xt yt x2 y2 : Arr2) : DiffStats :=
  let dX := sub2 xt x2
  let dY := sub2 yt y2
  { sum_x := arr2Sum dX
    sum_y := arr2Sum dY
    mean_x := arr2Mean dX
    mean_y := arr2Mean dY
    max_x := arr2Max dX
    max_y := arr2Max dY
    argmax_x := unravelIndex (argmaxFlat dX) ((xt.headD []).length)
    argmax_y := unravelIndex (argmaxFlat dY) ((yt.headD []).length) }

/-- One `pyproj.transform(projFrom, projTo, x, y)` call of the check loop,
with the statistics printed for it. -/
structure TransformStep where
  projFrom : Proj
  projTo : Proj
  stats : DiffStats
deriving DecidableEq, Repr

/-- One iteration of the `for grid in [...]` loop of
`check_grid_consistency`: the loop label and its two transform steps. -/
structure VariantReport where
  label : String
  step1 : TransformStep
  step2 : TransformStep
deriving DecidableEq, Repr

/-- The external `pyproj.transform` collaborator: elementwise transform of
coordinate arrays from one projection to another. -/
abbrev Transform := Proj → Proj → Arr2 → Arr2 → Arr2 × Arr2

/-- `check_grid_consistency(grid1, grid2, proj1, proj2)` (lines 92-121):
for each label in `['mass_grid', 'u_grid', 'v_grid']` the body reads
`grid1['mass_grid']` and `grid2['mass_grid']` (lines 108-109) and performs
the two transform-and-compare steps on them.  The printed output is
returned as a list of per-iteration reports. -/
def check_grid_consistency (t : Transform) (grid1 grid2 : Grids)
    (proj1 proj2 : Proj) : List VariantReport :=
  ["mass_grid", "u_grid", "v_grid"].map (fun grid =>
    let x1 := grid1.mass_grid.1
    let y1 := grid1.mass_grid.2
    let x2 := grid2.mass_grid.1
    let y2 := grid2.mass_grid.2
    let t1 := t proj1 proj2 x1 y1
    let s1 := print_diffs t1.1 t1.2 x2 y2
    let t2 := t proj2 proj1 x2 y2
    let s2 := print_diffs t2.1 t2.2 x1 y1
    { label := grid
      step1 := { projFrom := proj1, projTo := proj2, stats := s1 }
      step2 := { projFrom := proj2, projTo := proj1, stats := s2 } })

/-- `proj_wgs84` (line 135): `pyproj.Proj("+init=EPSG:4326")`. -/
def proj_wgs84 : Proj := Proj.latlonWGS84

/-- `proj_sll` (line 137): the spherical lat/lon projection
`pyproj.Proj("+proj=latlong +a=6370 +b=6370 +towgs84=0,0,0 +no_defs")`. -/
def proj_sll : Proj := Proj.latlonSphere 6370 6370

/-- `reproduce_wrf_grid`, kept together with its diagnostic side channel:
the value is the pair `(coords_peter, grids_peter)` the function returns,
the first component the consistency report it prints on the way. -/
def reproduce_wrf_grid_with_report (t : Transform) (wrfout : WrfOut) :
    Except String (List VariantReport × (List Axes × Grids)) := do
  let proj_wrf_lcc ← get_wrf_proj wrfout
  let grid_params_wrf := get_wrf_grid_params wrfout
  let res := reconstruct_grid grid_params_wrf
  let grids_wrfout := load_wrf_grids wrfout
  let report := check_grid_consistency t res.2 grids_wrfout proj_wrf_lcc proj_wgs84
  return (report, res)

/-- `reproduce_wrf_grid(wrfout)`: the value the function actually returns,
`coords_peter, grids_peter`. -/
def reproduce_wrf_grid (t : Transform) (wrfout : WrfOut) :
    Except String (List Axes × Grids) :=
  (reproduce_wrf_grid_with_report t wrfout).map (fun r => r.2)

/-- Shape `(rows, cols)` of a 2D array, cols read off the first row. -/
def shape2 (a : Arr2) : ℕ × ℕ := (a.length, (a.headD []).length)

/-- Closed form of the axis rule: for every parity, point `k` of the axis
sits at `(k - (n-1)/2) * d`. -/
theorem make_grid_coordinate_eq (n : ℕ) (d : ℚ) :
    make_grid_coordinate n d =
      (List.range n).map (fun (k : ℕ) => ((k : ℚ) - ((n : ℚ) - 1) / 2) * d) := by
  rcases Nat.even_or_odd n with ⟨m, hm⟩ | ⟨m, hm⟩
  · subst hm
    simp only [make_grid_coordinate, arangeRat]
    rw [if_neg (by omega : ¬((m + m) % 2 = 1))]
    have hstop : ((m + m + 1) / 2 : ℕ) = m := by omega
    rw [hstop]
    have hc : Int.ceil ((m : ℚ) - -(((m + m : ℕ) : ℚ) - 1) / 2) = ((m + m : ℕ) : ℤ) := by
      rw [Int.ceil_eq_iff]
      push_cast
      constructor <;> linarith
    rw [hc, Int.toNat_natCast, List.map_map]
    apply List.map_congr_left
    intro k _
    simp only [Function.comp]
    push_cast
    ring
  · subst hm
    simp only [make_grid_coordinate, arangeInt]
    rw [if_pos (by omega : (2 * m + 1) % 2 = 1)]
    have hdiv : ((2 * m + 1 : ℕ) : ℤ) / 2 = (m : ℤ) := by omega
    rw [hdiv]
    have hcount : ((m : ℤ) + 1 - -(m : ℤ)).toNat = 2 * m + 1 := by omega
    rw [hcount, List.map_map, List.map_map]
    apply List.map_congr_left
    intro k _
    simp only [Function.comp]
    push_cast
    ring

/-- The axis for count `n` has `n` points. -/
theorem make_grid_coordinate_length (n : ℕ) (d : ℚ) :
    (make_grid_coordinate n d).length = n := by
  rw [make_grid_coordinate_eq]
  simp

/-- Value of point `i < n` of the axis. -/
theorem make_grid_coordinate_getD (n : ℕ) (d : ℚ) (i : ℕ) (h : i < n) :
    (make_grid_coordinate n d).getD i 0 = ((i : ℚ) - ((n : ℚ) - 1) / 2) * d := by
  rw [make_grid_coordinate_eq, List.getD_eq_getElem?_getD,
    List.getElem?_map _ _ i, List.getElem?_range h]
  rfl

/-- An axis with at least one point is nonempty. -/
theorem make_grid_coordinate_ne_nil (n : ℕ) (d : ℚ) (h : 1 ≤ n) :
    make_grid_coordinate n d ≠ [] := by
  have hl := make_grid_coordinate_length n d
  intro hh
  rw [hh] at hl
  simp at hl
  omega

/-- Sum of the shifted-and-scaled enumeration `(k - c) * d`, `k < N`. -/
theorem sum_range_shift (N : ℕ) (c d : ℚ) :
    ((List.range N).map (fun (k : ℕ) => ((k : ℚ) - c) * d)).sum
      = (((N : ℚ) * ((N : ℚ) - 1)) / 2 - (N : ℚ) * c) * d := by
  induction N with
  | zero => simp
  | succ n ih =>
    rw [List.range_succ, List.map_append, List.sum_append, ih]
    push_cast
    simp
    ring

/-- Both arrays of `np.meshgrid(x, y)` have shape `(len y, len x)` whenever
`y` is nonempty. -/
theorem meshgrid_shape (x y : List ℚ) (hy : y ≠ []) :
    shape2 (meshgrid x y).1 = (y.length, x.length) ∧
    shape2 (meshgrid x y).2 = (y.length, x.length) := by
  cases y with
  | nil => cases hy rfl
  | cons a ys => simp [meshgrid, shape2]

/-- C1: at `nx=4, ny=3, dx=1000, dy=2000` the y-staggered axis produced by
`reconstruct_grid` is `[-2000, -1000, 0, 1000, 2000]`: it is built from the
x direction's parameters (`nx+1 = 5` points at spacing `dx = 1000`), not
from its own direction's (`ny+1 = 4` points at spacing `dy = 2000`) as the
claim states: its length is not `ny + 1` and its spacing is not `dy`. -/
theorem y_stag_built_from_x_direction :
    ((reconstruct_grid ⟨1000, 2000, 4, 3⟩).1.headD ⟨[], [], [], []⟩).y_stag
        = [-2000, -1000, 0, 1000, 2000] ∧
    ([(-2000 : ℚ), -1000, 0, 1000, 2000].length ≠ 3 + 1) ∧
    ([(-2000 : ℚ), -1000, 0, 1000, 2000].getD 1 0
        - [(-2000 : ℚ), -1000, 0, 1000, 2000].getD 0 0) ≠ 2000 := by
  refine ⟨?_, by simp, ?_⟩
  · simp only [reconstruct_grid, List.headD_cons]
    rw [make_grid_coordinate_eq]
    norm_num [List.range_succ]
  · simp only [List.getD]
    norm_num

/-- C2: at `nx=4, ny=3` the mass grid of `reconstruct_grid` has shape
`(3, 4)` and the u-grid `(3, 5)` as the claim states, but both arrays of
the v-grid have shape `(5, 4)` — `(nx+1, nx)`, not the claimed
`(ny+1, nx) = (4, 4)` — because the y-staggered axis carries `nx+1`
points. -/
theorem v_grid_shape_from_x_count :
    shape2 (reconstruct_grid ⟨1000, 2000, 4, 3⟩).2.mass_grid.1 = (3, 4) ∧
    shape2 (reconstruct_grid ⟨1000, 2000, 4, 3⟩).2.mass_grid.2 = (3, 4) ∧
    shape2 (reconstruct_grid ⟨1000, 2000, 4, 3⟩).2.u_grid.1 = (3, 5) ∧
    shape2 (reconstruct_grid ⟨1000, 2000, 4, 3⟩).2.u_grid.2 = (3, 5) ∧
    shape2 (reconstruct_grid ⟨1000, 2000, 4, 3⟩).2.v_grid.1 = (5, 4) ∧
    shape2 (reconstruct_grid ⟨1000, 2000, 4, 3⟩).2.v_grid.2 = (5, 4) ∧
    ((5, 4) : ℕ × ℕ) ≠ (3 + 1, 4) := by
  have h4 : (make_grid_coordinate 4 1000).length = 4 := make_grid_coordinate_length 4 1000
  have h3 : (make_grid_coordinate 3 2000).length = 3 := make_grid_coordinate_length 3 2000
  have h5 : (make_grid_coordinate (4 + 1) 1000).length = 5 :=
    make_grid_coordinate_length 5 1000
  have hy : make_grid_coordinate 3 2000 ≠ [] :=
    make_grid_coordinate_ne_nil 3 2000 (by norm_num)
  have hys : make_grid_coordinate (4 + 1) 1000 ≠ [] :=
    make_grid_coordinate_ne_nil 5 1000 (by norm_num)
  simp only [reconstruct_grid]
  refine ⟨?_, ?_, ?_, ?_, ?_, ?_, by decide⟩
  · rw [(meshgrid_shape _ _ hy).1, h3, h4]
  · rw [(meshgrid_shape _ _ hy).2, h3, h4]
  · rw [(meshgrid_shape _ _ hy).1, h3, h5]
  · rw [(meshgrid_shape _ _ hy).2, h3, h5]
  · rw [(meshgrid_shape _ _ hys).1, h5, h4]
  · rw [(meshgrid_shape _ _ hys).2, h5, h4]

/-- C3: `check_grid_consistency` iterates over the three labels
`mass_grid, u_grid, v_grid`, its output is invariant under any change of
the `u_grid` and `v_grid` entries of both inputs (only the mass grids are
read), and all three iterations perform identical transform-and-compare
steps. -/
theorem check_grid_consistency_reads_only_mass (t : Transform)
    (g1 g2 g1x g2x : Grids) (p1 p2 : Proj)
    (h1 : g1x.mass_grid = g1.mass_grid) (h2 : g2x.mass_grid = g2.mass_grid) :
    (check_grid_consistency t g1 g2 p1 p2).map (fun r => r.label)
      = ["mass_grid", "u_grid", "v_grid"] ∧
    check_grid_consistency t g1x g2x p1 p2 = check_grid_consistency t g1 g2 p1 p2 ∧
    ∀ r ∈ check_grid_consistency t g1 g2 p1 p2,
      ∀ r' ∈ check_grid_consistency t g1 g2 p1 p2,
        r.step1 = r'.step1 ∧ r.step2 = r'.step2 := by
  refine ⟨by simp [check_grid_consistency],
    by simp [check_grid_consistency, h1, h2], ?_⟩
  intro r hr r' hr'
  simp only [check_grid_consistency, List.map_cons, List.map_nil, List.mem_cons,
    List.not_mem_nil, or_false] at hr hr'
  rcases hr with rfl | rfl | rfl <;> rcases hr' with rfl | rfl | rfl <;> exact ⟨rfl, rfl⟩

/-- Witness for C3 at a concrete transform, concrete grids and concrete
projections (the second pair of grids differs from the first in its
`u_grid` and `v_grid` entries only). -/
theorem check_grid_consistency_reads_only_mass_witness :
    (check_grid_consistency (fun _ _ x y => (x, y))
        ⟨([[0]], [[0]]), ([[1]], [[1]]), ([[2]], [[2]])⟩
        ⟨([[3]], [[3]]), ([[4]], [[4]]), ([[5]], [[5]])⟩
        proj_wgs84 proj_wgs84).map (fun r => r.label)
      = ["mass_grid", "u_grid", "v_grid"] :=
  (check_grid_consistency_reads_only_mass (fun _ _ x y => (x, y))
    ⟨([[0]], [[0]]), ([[1]], [[1]]), ([[2]], [[2]])⟩
    ⟨([[3]], [[3]]), ([[4]], [[4]]), ([[5]], [[5]])⟩
    ⟨([[0]], [[0]]), ([[6]], [[6]]), ([[7]], [[7]])⟩
    ⟨([[3]], [[3]]), ([[8]], [[8]]), ([[9]], [[9]])⟩
    proj_wgs84 proj_wgs84 rfl rfl).1

/-- C4: for `n ≥ 1` and positive spacing `d` the axis has exactly `n`
points, is strictly increasing, and for odd `n` satisfies
`axis[i] = -axis[n-1-i]` for every `i < n`. -/
theorem make_grid_coordinate_count_increasing_odd_symmetric
    (n : ℕ) (d : ℚ) (hn : 1 ≤ n) (hd : 0 < d) :
    (make_grid_coordinate n d).length = n ∧
    (∀ i j : ℕ, i < j → j < n →
      (make_grid_coordinate n d).getD i 0 < (make_grid_coordinate n d).getD j 0) ∧
    (n % 2 = 1 → ∀ i : ℕ, i < n →
      (make_grid_coordinate n d).getD i 0
        = -((make_grid_coordinate n d).getD (n - 1 - i) 0)) := by
  refine ⟨make_grid_coordinate_length n d, ?_, ?_⟩
  · intro i j hij hj
    rw [make_grid_coordinate_getD n d i (lt_trans hij hj),
      make_grid_coordinate_getD n d j hj]
    have hc : (i : ℚ) < (j : ℚ) := by exact_mod_cast hij
    apply mul_lt_mul_of_pos_right _ hd
    linarith
  · intro _ i hi
    have hni : n - 1 - i < n := by omega
    rw [make_grid_coordinate_getD n d i hi,
      make_grid_coordinate_getD n d (n - 1 - i) hni]
    have hc : ((n - 1 - i : ℕ) : ℚ) = (n : ℚ) - 1 - (i : ℚ) := by
      push_cast [Nat.cast_sub (by omega : i ≤ n - 1), Nat.cast_sub (by omega : 1 ≤ n)]
      ring
    rw [hc]
    ring

/-- Witness for C4 at `n = 5`, `d = 1000`: strict increase between the
first two axis points. -/
theorem make_grid_coordinate_count_increasing_odd_symmetric_witness :
    (make_grid_coordinate 5 1000).getD 0 0 < (make_grid_coordinate 5 1000).getD 1 0 :=
  (make_grid_coordinate_count_increasing_odd_symmetric 5 1000 (by norm_num)
    (by norm_num)).2.1 0 1 (by norm_num) (by norm_num)

/-- C5: at `nx=4, ny=3, dx=1000, dy=2000` the mass x-axis is
`[-1500, -500, 500, 1500]`, the mass y-axis is `[-2000, 0, 2000]`, both
mass-grid arrays have shape `(3, 4)`; and the odd count `n=5` with
`d=1000` yields `[-2000, -1000, 0, 1000, 2000]`. -/
theorem reconstruct_grid_concrete_scenarios :
    ((reconstruct_grid ⟨1000, 2000, 4, 3⟩).1.headD ⟨[], [], [], []⟩).x
        = [-1500, -500, 500, 1500] ∧
    ((reconstruct_grid ⟨1000, 2000, 4, 3⟩).1.headD ⟨[], [], [], []⟩).y
        = [-2000, 0, 2000] ∧
    shape2 (reconstruct_grid ⟨1000, 2000, 4, 3⟩).2.mass_grid.1 = (3, 4) ∧
    shape2 (reconstruct_grid ⟨1000, 2000, 4, 3⟩).2.mass_grid.2 = (3, 4) ∧
    make_grid_coordinate 5 1000 = [-2000, -1000, 0, 1000, 2000] := by
  have h4 : (make_grid_coordinate 4 1000).length = 4 := make_grid_coordinate_length 4 1000
  have h3 : (make_grid_coordinate 3 2000).length = 3 := make_grid_coordinate_length 3 2000
  have hy : make_grid_coordinate 3 2000 ≠ [] :=
    make_grid_coordinate_ne_nil 3 2000 (by norm_num)
  refine ⟨?_, ?_, ?_, ?_, ?_⟩
  · simp only [reconstruct_grid, List.headD_cons]
    rw [make_grid_coordinate_eq]
    norm_num [List.range_succ]
  · simp only [reconstruct_grid, List.headD_cons]
    rw [make_grid_coordinate_eq]
    norm_num [List.range_succ]
  · simp only [reconstruct_grid]
    rw [(meshgrid_shape _ _ hy).1, h3, h4]
  · simp only [reconstruct_grid]
    rw [(meshgrid_shape _ _ hy).2, h3, h4]
  · rw [make_grid_coordinate_eq]
    norm_num [List.range_succ]

/-- C6: `get_wrf_proj` returns the LCC projection built from `TRUELAT1`,
`TRUELAT2`, `CEN_LAT`, `CEN_LON` and sphere radius `6370000` exactly when
`MAP_PROJ = 1`, and raises the unsupported-projection `ValueError` for
every other code. -/
theorem get_wrf_proj_unsupported_dichotomy (w : WrfOut) :
    (w.MAP_PROJ = 1 →
      get_wrf_proj w
        = Except.ok (Proj.lcc w.TRUELAT1 w.TRUELAT2 w.CEN_LAT w.CEN_LON 6370000)) ∧
    (w.MAP_PROJ ≠ 1 →
      get_wrf_proj w = Except.error "This WRF output is not on a Lambert grid") := by
  constructor
  · intro h
    simp [get_wrf_proj, h]
  · intro h
    simp [get_wrf_proj, h]

/-- Witness for C6: a dataset with `MAP_PROJ = 1` yields the LCC
projection, one with `MAP_PROJ = 2` yields the error. -/
theorem get_wrf_proj_unsupported_dichotomy_witness :
    get_wrf_proj ⟨1, 10, 52, 30, 60, 1000, 2000, 4, 3, fun _ => [[0]], fun _ => [[0]],
        fun _ => [[0]], fun _ => [[0]], fun _ => [[0]], fun _ => [[0]]⟩
      = Except.ok (Proj.lcc 30 60 52 10 6370000) ∧
    get_wrf_proj ⟨2, 10, 52, 30, 60, 1000, 2000, 4, 3, fun _ => [[0]], fun _ => [[0]],
        fun _ => [[0]], fun _ => [[0]], fun _ => [[0]], fun _ => [[0]]⟩
      = Except.error "This WRF output is not on a Lambert grid" :=
  ⟨(get_wrf_proj_unsupported_dichotomy _).1 rfl,
   (get_wrf_proj_unsupported_dichotomy _).2 (by decide)⟩

/-- C7: whenever the projection stage succeeds (`MAP_PROJ = 1`),
`reproduce_wrf_grid` returns exactly the pair produced by
`reconstruct_grid` on the extracted grid parameters, for every external
transform and every dataset contents: the consistency check never fails
on numeric mismatch and does not alter the return value. -/
theorem reproduce_wrf_grid_returns_reconstruction (t : Transform) (w : WrfOut)
    (h : w.MAP_PROJ = 1) :
    reproduce_wrf_grid t w = Except.ok (reconstruct_grid (get_wrf_grid_params w)) := by
  simp [reproduce_wrf_grid, reproduce_wrf_grid_with_report, get_wrf_proj, h, Except.map]

/-- Witness for C7 at a concrete transform and dataset. -/
theorem reproduce_wrf_grid_returns_reconstruction_witness :
    reproduce_wrf_grid (fun _ _ x y => (x, y))
        ⟨1, 10, 52, 30, 60, 1000, 2000, 4, 3, fun _ => [[0]], fun _ => [[0]],
          fun _ => [[0]], fun _ => [[0]], fun _ => [[0]], fun _ => [[0]]⟩
      = Except.ok (reconstruct_grid (get_wrf_grid_params
          ⟨1, 10, 52, 30, 60, 1000, 2000, 4, 3, fun _ => [[0]], fun _ => [[0]],
            fun _ => [[0]], fun _ => [[0]], fun _ => [[0]], fun _ => [[0]]⟩)) :=
  reproduce_wrf_grid_returns_reconstruction _ _ rfl

/-- C8: the first component of the pair `reconstruct_grid` returns is the
1-tuple (one-element sequence) holding the axes dict with keys `x`, `y`,
`x_stag`, `y_stag` — not the dict itself; a caller must index into it. -/
theorem reconstruct_grid_coords_one_tuple (p : GridParams) :
    (reconstruct_grid p).1.length = 1 ∧
    (reconstruct_grid p).1.headD ⟨[], [], [], []⟩
      = { x := make_grid_coordinate p.nx p.dx
          y := make_grid_coordinate p.ny p.dy
          x_stag := make_grid_coordinate (p.nx + 1) p.dx
          y_stag := make_grid_coordinate (p.nx + 1) p.dx } :=
  ⟨rfl, rfl⟩

/-- C9: for even `n ≥ 2` the axis is also symmetric about zero
(`axis[i] = -axis[n-1-i]`), every point is an odd integer multiple of
`d/2`, and for every `n ≥ 1` the axis sums to zero. -/
theorem make_grid_coordinate_even_symmetric_sum_zero (n : ℕ) (d : ℚ) :
    (2 ≤ n → n % 2 = 0 → ∀ i : ℕ, i < n →
      ((make_grid_coordinate n d).getD i 0
          = -((make_grid_coordinate n d).getD (n - 1 - i) 0) ∧
        ∃ m : ℤ, Odd m ∧ (make_grid_coordinate n d).getD i 0 = (m : ℚ) * d / 2)) ∧
    (1 ≤ n → (make_grid_coordinate n d).sum = 0) := by
  constructor
  · intro hn _ i hi
    have hni : n - 1 - i < n := by omega
    constructor
    · rw [make_grid_coordinate_getD n d i hi,
        make_grid_coordinate_getD n d (n - 1 - i) hni]
      have hc : ((n - 1 - i : ℕ) : ℚ) = (n : ℚ) - 1 - (i : ℚ) := by
        push_cast [Nat.cast_sub (by omega : i ≤ n - 1), Nat.cast_sub (by omega : 1 ≤ n)]
        ring
      rw [hc]
      ring
    · refine ⟨2 * (i : ℤ) - ((n : ℤ) - 1), ⟨(i : ℤ) - (n : ℤ) / 2, by omega⟩, ?_⟩
      rw [make_grid_coordinate_getD n d i hi]
      push_cast
      ring
  · intro _
    rw [make_grid_coordinate_eq, sum_range_shift]
    ring

/-- Witness for C9 at `n = 4`, `d = 1000`, `i = 1`. -/
theorem make_grid_coordinate_even_symmetric_sum_zero_witness :
    ((make_grid_coordinate 4 1000).getD 1 0
        = -((make_grid_coordinate 4 1000).getD 2 0)) ∧
    (∃ m : ℤ, Odd m ∧ (make_grid_coordinate 4 1000).getD 1 0 = (m : ℚ) * 1000 / 2) ∧
    (make_grid_coordinate 4 1000).sum = 0 :=
  ⟨((make_grid_coordinate_even_symmetric_sum_zero 4 1000).1 (by norm_num) (by norm_num)
      1 (by norm_num)).1,
   ((make_grid_coordinate_even_symmetric_sum_zero 4 1000).1 (by norm_num) (by norm_num)
      1 (by norm_num)).2,
   (make_grid_coordinate_even_symmetric_sum_zero 4 1000).2 (by norm_num)⟩

/-- C10: when the pipeline runs (`MAP_PROJ = 1`), the consistency report of
`reproduce_wrf_grid` is produced with the WRF LCC projection and the WGS84
projection only: in every transform step the second projection is
`proj_wgs84` (in the stated direction), and the spherical-datum `proj_sll`
appears in no transform step at all. -/
theorem reproduce_wrf_grid_sll_unused (t : Transform) (w : WrfOut)
    (h : w.MAP_PROJ = 1) :
    reproduce_wrf_grid_with_report t w
      = Except.ok
          (check_grid_consistency t (reconstruct_grid (get_wrf_grid_params w)).2
            (load_wrf_grids w)
            (Proj.lcc w.TRUELAT1 w.TRUELAT2 w.CEN_LAT w.CEN_LON 6370000) proj_wgs84,
           reconstruct_grid (get_wrf_grid_params w)) ∧
    ∀ r ∈ check_grid_consistency t (reconstruct_grid (get_wrf_grid_params w)).2
        (load_wrf_grids w)
        (Proj.lcc w.TRUELAT1 w.TRUELAT2 w.CEN_LAT w.CEN_LON 6370000) proj_wgs84,
      r.step1.projTo = proj_wgs84 ∧ r.step2.projFrom = proj_wgs84 ∧
      r.step1.projFrom ≠ proj_sll ∧ r.step1.projTo ≠ proj_sll ∧
      r.step2.projFrom ≠ proj_sll ∧ r.step2.projTo ≠ proj_sll := by
  constructor
  · simp [reproduce_wrf_grid_with_report, get_wrf_proj, h]
  · intro r hr
    simp only [check_grid_consistency, List.map_cons, List.map_nil, List.mem_cons,
      List.not_mem_nil, or_false] at hr
    rcases hr with rfl | rfl | rfl <;>
      refine ⟨rfl, rfl, by simp [proj_sll], by simp [proj_sll, proj_wgs84],
        by simp [proj_sll, proj_wgs84], by simp [proj_sll]⟩

/-- Witness for C10 at a concrete transform and dataset. -/
theorem reproduce_wrf_grid_sll_unused_witness :
    reproduce_wrf_grid_with_report (fun _ _ x y => (x, y))
        ⟨1, 10, 52, 30, 60, 1000, 2000, 4, 3, fun _ => [[0]], fun _ => [[0]],
          fun _ => [[0]], fun _ => [[0]], fun _ => [[0]], fun _ => [[0]]⟩
      = Except.ok
          (check_grid_consistency (fun _ _ x y => (x, y))
            (reconstruct_grid (get_wrf_grid_params
              ⟨1, 10, 52, 30, 60, 1000, 2000, 4, 3, fun _ => [[0]], fun _ => [[0]],
                fun _ => [[0]], fun _ => [[0]], fun _ => [[0]], fun _ => [[0]]⟩)).2
            (load_wrf_grids
              ⟨1, 10, 52, 30, 60, 1000, 2000, 4, 3, fun _ => [[0]], fun _ => [[0]],
                fun _ => [[0]], fun _ => [[0]], fun _ => [[0]], fun _ => [[0]]⟩)
            (Proj.lcc 30 60 52 10 6370000) proj_wgs84,
           reconstruct_grid (get_wrf_grid_params
              ⟨1, 10, 52, 30, 60, 1000, 2000, 4, 3, fun _ => [[0]], fun _ => [[0]],
                fun _ => [[0]], fun _ => [[0]], fun _ => [[0]], fun _ => [[0]]⟩)) :=
  (reproduce_wrf_grid_sll_unused (fun _ _ x y => (x, y))
    ⟨1, 10, 52, 30, 60, 1000, 2000, 4, 3, fun _ => [[0]], fun _ => [[0]],
      fun _ => [[0]], fun _ => [[0]], fun _ => [[0]], fun _ => [[0]]⟩ rfl).1

end WrfGrid
